import Mathlib

/-!
Verification of the certificate-provisioning and TLS-serving core of the
crowsite repository (source: src/scripts/https_server.py).

The Python functions are shallowly embedded as pure Lean functions over an
explicit environment describing the outcomes of the external effects
(filesystem existence checks, the openssl lookup and subprocess, the route
probing socket, signals).  Each branch of every Lean definition corresponds
to a branch of the Python source; effects are recorded as explicit event
traces so that frame conditions (no write, no subprocess call) are provable.
-/

set_option autoImplicit false
set_option maxRecDepth 4000

namespace Crowsite

/-! ### Generic character-list splitting

Models how an external parser (openssl reading a comma separated
subjectAltName value, or an IPv4 reader splitting on dots) decomposes a
string at a separator character. -/

/-- Split a character list at every occurrence of the separator `sep`.
The result always has one more segment than there are separators. -/
def splitCh (sep : Char) : List Char → List (List Char)
  | [] => [[]]
  | c :: cs =>
    match splitCh sep cs with
    | [] => if c = sep then [[], []] else [[c]]
    | g :: gs => if c = sep then [] :: g :: gs else (c :: g) :: gs

theorem splitCh_ne_nil (sep : Char) (l : List Char) : splitCh sep l ≠ [] := by
  induction l with
  | nil => simp [splitCh]
  | cons c cs ih =>
    simp only [splitCh]
    cases h : splitCh sep cs with
    | nil => exact absurd h ih
    | cons g gs =>
      by_cases hc : c = sep <;> simp [hc]

theorem splitCh_no_sep (sep : Char) (l : List Char) (h : sep ∉ l) :
    splitCh sep l = [l] := by
  induction l with
  | nil => rfl
  | cons c cs ih =>
    have hc : c ≠ sep := fun hcs => h (hcs ▸ List.mem_cons_self c cs)
    have hcs : sep ∉ cs := fun hm => h (List.mem_cons_of_mem c hm)
    simp only [splitCh, ih hcs]
    simp [hc]

theorem splitCh_append (sep : Char) (l₁ l₂ : List Char) (h : sep ∉ l₁) :
    splitCh sep (l₁ ++ sep :: l₂) = l₁ :: splitCh sep l₂ := by
  induction l₁ with
  | nil =>
    simp only [List.nil_append, splitCh]
    cases hs : splitCh sep l₂ with
    | nil => exact absurd hs (splitCh_ne_nil sep l₂)
    | cons g gs => simp
  | cons c cs ih =>
    have hc : c ≠ sep := fun hcs => h (hcs ▸ List.mem_cons_self c cs)
    have hcs : sep ∉ cs := fun hm => h (List.mem_cons_of_mem c hm)
    simp only [List.cons_append, splitCh]
    simp only [List.append_eq]
    rw [ih hcs]
    simp [hc]

/-! ### NetworkIdentity (function `lan_ip`, source lines 11-20)

The Python code is:
```
def lan_ip() -> str:
    s = socket.socket(socket.AF_INET, socket.SOCK_DGRAM)
    try:
        s.connect((8.8.8.8, 80))
        return s.getsockname()[0]
    except Exception:
        return 127.0.0.1
    finally:
        s.close()
```
The call `socket.socket(...)` on line 12 sits OUTSIDE the try block: if it
raises, the exception propagates to the caller.  Failures of `connect` or
`getsockname` are caught and yield the loopback fallback.  On success the
operating system reports the bound source address of an AF_INET socket,
which is a dotted-quad IPv4 address: we model that OS contract by an
`IPv4Addr` quadruple rendered with decimal octets. -/

/-- An IPv4 address as the operating system hands it back for an AF_INET
socket: four octets. -/
structure IPv4Addr where
  a : Fin 256
  b : Fin 256
  c : Fin 256
  d : Fin 256
  deriving DecidableEq

/-- Dotted-quad rendering of an IPv4 address, as `getsockname` returns it. -/
def renderIPv4 (x : IPv4Addr) : String :=
  Nat.repr x.a.val ++ "." ++ Nat.repr x.b.val ++ "." ++
    Nat.repr x.c.val ++ "." ++ Nat.repr x.d.val

/-- Check that a character list is a decimal octet: nonempty, all digits,
value at most 255. -/
def octetOK (l : List Char) : Bool :=
  !l.isEmpty && l.all Char.isDigit &&
    l.foldl (fun n c => n * 10 + (c.toNat - 48)) 0 ≤ 255

/-- Modelled from the spec: a syntactically valid IPv4 address string
(four decimal octets, each at most 255, separated by dots).  The checker is
external to the repository; the source never parses addresses itself. -/
def isValidIPv4Str (s : String) : Bool :=
  match splitCh '.' s.data with
  | [a, b, c, d] => octetOK a && octetOK b && octetOK c && octetOK d
  | _ => false

/-- Environment for one run of `lan_ip`: which of the fallible external
calls fail.  `sockRaises` is a failure of `socket.socket` itself (line 12,
outside the try block); `connectRaises` is a failure of `connect` or
`getsockname` (lines 15-16, inside the try block); `connected` is the
success case carrying the address the OS reports. -/
inductive ProbeEnv where
  | sockRaises
  | connectRaises
  | connected (addr : IPv4Addr)
  deriving DecidableEq

/-- Result of a Python call: a returned value or a propagated exception. -/
inductive PyResult (α : Type) where
  | ok (a : α)
  | raised
  deriving DecidableEq

/-- Socket lifecycle events of one `lan_ip` run. -/
inductive NetEvent where
  | sockOpen
  | sockClose
  deriving DecidableEq

/-- Shallow embedding of `lan_ip` (lines 11-20): result plus the socket
lifecycle trace.  When `socket.socket` raises, no socket is opened and the
exception propagates (no except clause covers line 12).  Otherwise the
socket is opened, and the finally clause closes it on every path. -/
def lan_ip : ProbeEnv → PyResult String × List NetEvent
  | .sockRaises => (.raised, [])
  | .connectRaises => (.ok "127.0.0.1", [.sockOpen, .sockClose])
  | .connected addr => (.ok (renderIPv4 addr), [.sockOpen, .sockClose])

theorem octet_repr_ok : ∀ n : Nat, n < 256 → octetOK (Nat.repr n).data = true := by
  decide

theorem octet_repr_no_dot : ∀ n : Nat, n < 256 → '.' ∉ (Nat.repr n).data := by
  decide

theorem renderIPv4_valid (x : IPv4Addr) : isValidIPv4Str (renderIPv4 x) = true := by
  have hdata : (renderIPv4 x).data =
      (Nat.repr x.a.val).data ++ '.' :: ((Nat.repr x.b.val).data ++ '.' ::
        ((Nat.repr x.c.val).data ++ '.' :: (Nat.repr x.d.val).data)) := by
    simp [renderIPv4, String.data_append]
  have ha := octet_repr_no_dot x.a.val x.a.isLt
  have hb := octet_repr_no_dot x.b.val x.b.isLt
  have hc := octet_repr_no_dot x.c.val x.c.isLt
  have hd := octet_repr_no_dot x.d.val x.d.isLt
  have hsplit : splitCh '.' (renderIPv4 x).data =
      [(Nat.repr x.a.val).data, (Nat.repr x.b.val).data,
       (Nat.repr x.c.val).data, (Nat.repr x.d.val).data] := by
    rw [hdata, splitCh_append _ _ _ ha, splitCh_append _ _ _ hb,
      splitCh_append _ _ _ hc, splitCh_no_sep _ _ hd]
  simp [isValidIPv4Str, hsplit, octet_repr_ok x.a.val x.a.isLt,
    octet_repr_ok x.b.val x.b.isLt, octet_repr_ok x.c.val x.c.isLt,
    octet_repr_ok x.d.val x.d.isLt]

/-! ### CertificateProvisioner (function `ensure_certs`, source lines 22-64)

The Python code first returns when both target files exist, then exits the
process with code 1 when `shutil.which` finds no openssl, and otherwise
writes a temporary config file, runs openssl with `check=True` (so a
non-zero exit raises `CalledProcessError`), and in a finally block attempts
`os.unlink` on the config file with any `OSError` swallowed by `pass`. -/

/-- Existence state of the three files `ensure_certs` touches.  The
temporary config file has a fresh name from `tempfile`, so it does not
exist before the call. -/
structure FS where
  certExists : Bool
  keyExists : Bool
  tmpCnfExists : Bool
  deriving DecidableEq

/-- Outcome of the `os.unlink(cfg)` call in the finally block.  A raised
`OSError` is swallowed by the source; `failGone` is an error with the file
nevertheless absent (for instance ENOENT), `failStuck` is an error with the
file left on disk (for instance EPERM on the temp directory). -/
inductive UnlinkBehavior where
  | ok
  | failGone
  | failStuck
  deriving DecidableEq

/-- Does the temporary config file exist after the unlink attempt? -/
def tmpAfterUnlink : UnlinkBehavior → Bool
  | .ok => false
  | .failGone => false
  | .failStuck => true

/-- Environment of one `ensure_certs` run: initial filesystem, outcome of
the `shutil.which` lookup, exit status of the openssl subprocess, which
target files a failed openssl run left behind, and the unlink outcome. -/
structure GenEnv where
  fs : FS
  opensslFound : Bool
  genExitZero : Bool
  certWrittenOnFail : Bool
  keyWrittenOnFail : Bool
  unlink : UnlinkBehavior
  deriving DecidableEq

/-- Observable effects of one `ensure_certs` run, in order. -/
inductive Event where
  | printError (msg : String)
  | printInfo (msg : String)
  | writeTmpCnf (content : String)
  | runOpenssl (args : List String)
  | unlinkTmpCnf
  deriving DecidableEq

/-- How the call to `ensure_certs` ends: a normal return, `sys.exit` with
the given code, or a propagated `subprocess.CalledProcessError` (the
designated generation-failure error raised by `check=True`). -/
inductive Outcome where
  | returned
  | exited (code : Nat)
  | raisedCalledProcessError
  deriving DecidableEq

/-- The error text printed on lines 30-32 before `sys.exit(1)`. -/
def noOpensslMsg : String :=
  "ERROR: cert.pem/key.pem not found and OpenSSL is not installed.\n" ++
  " - Install OpenSSL (or use mkcert), or\n" ++
  " - Drop valid cert.pem/key.pem into the project root.\n"

/-- The subjectAltName value built by the format string on line 35,
DNS:localhost,IP:127.0.0.1,IP:<ip>. -/
def sanString (ip : String) : String :=
  "DNS:localhost,IP:127.0.0.1,IP:" ++ ip

/-- The openssl request config written on lines 36-44. -/
def cnfContent (ip : String) : String :=
  "[req]\ndistinguished_name=req_distinguished_name\n" ++
  "x509_extensions = v3_req\nprompt = no\n[req_distinguished_name]\n" ++
  "CN=localhost\n[v3_req]\nsubjectAltName = " ++ sanString ip ++ "\n"

/-- The argument vector passed to `subprocess.run` on lines 50-57. -/
def opensslArgs (openssl cert key cfg : String) : List String :=
  [openssl, "req", "-x509", "-newkey", "rsa:2048", "-keyout", key,
   "-out", cert, "-days", "365", "-nodes", "-config", cfg]

/-- Name of the temporary config file created on lines 45-47. -/
def tmpCnfName : String := "tmp.cnf"

/-- Result of one `ensure_certs` run: how it ended, the ordered effect
trace, and the filesystem afterwards. -/
structure EnsureResult where
  outcome : Outcome
  events : List Event
  fs : FS
  deriving DecidableEq

/-- Shallow embedding of `ensure_certs` (lines 22-64).  Branches in source
order: the both-files-exist fast path (lines 25-26), the missing-openssl
exit (lines 28-33), then config write, openssl run and unlink attempt.  A
successful openssl run writes both target files; a failed one raises
`CalledProcessError` after the finally block runs, leaving whatever the
subprocess managed to write. -/
def ensure_certs (cert key ip : String) (env : GenEnv) : EnsureResult :=
  if env.fs.certExists && env.fs.keyExists then
    ⟨.returned, [], env.fs⟩
  else if !env.opensslFound then
    ⟨.exited 1, [.printError noOpensslMsg], env.fs⟩
  else if env.genExitZero then
    ⟨.returned,
      [.writeTmpCnf (cnfContent ip),
       .runOpenssl (opensslArgs "openssl" cert key tmpCnfName),
       .printInfo ("Generated self-signed certificate (SAN: localhost, 127.0.0.1, " ++ ip ++ ")"),
       .unlinkTmpCnf],
      ⟨true, true, tmpAfterUnlink env.unlink⟩⟩
  else
    ⟨.raisedCalledProcessError,
      [.writeTmpCnf (cnfContent ip),
       .runOpenssl (opensslArgs "openssl" cert key tmpCnfName),
       .unlinkTmpCnf],
      ⟨env.fs.certExists || env.certWrittenOnFail,
       env.fs.keyExists || env.keyWrittenOnFail,
       tmpAfterUnlink env.unlink⟩⟩

/-- The SAN entries of the generated certificate: openssl parses the
comma separated subjectAltName value of the config into individual
entries.  Models the external openssl config parser. -/
def sanEntries (ip : String) : List String :=
  (splitCh ',' (sanString ip).data).map String.mk

/-- The SAN entry set of the generated certificate. -/
def sanSet (ip : String) : Finset String :=
  (sanEntries ip).toFinset

/-- Did `ensure_certs` take the generation path (write a config and run
openssl)?  True exactly when the fast path and the missing-openssl exit
were both skipped. -/
def tookGenerationPath (cert key ip : String) (env : GenEnv) : Bool :=
  (ensure_certs cert key ip env).events.any fun e =>
    match e with
    | .runOpenssl _ => true
    | _ => false

/-- Shallow embedding of `ctx.load_cert_chain` in `main` (line 89): loading
succeeds exactly when both certificate and key files exist (a pair written
together by one openssl invocation always matches). -/
def load_cert_chain (fs : FS) : Bool :=
  fs.certExists && fs.keyExists

/-- Does `main` reach the server-construction step (line 87)?  It does
exactly when `ensure_certs` returned normally, since both `sys.exit` and a
propagated exception abort `main` first. -/
def mainReachesServe (cert key ip : String) (env : GenEnv) : Bool :=
  match (ensure_certs cert key ip env).outcome with
  | .returned => true
  | _ => false

theorem sanString_data (ip : String) :
    (sanString ip).data =
      "DNS:localhost".data ++ ',' ::
        ("IP:127.0.0.1".data ++ ',' :: ("IP:".data ++ ip.data)) := by
  show ("DNS:localhost,IP:127.0.0.1,IP:" ++ ip).data = _
  rw [String.data_append]
  rfl

theorem mk_append_data (s t : String) : String.mk (s.data ++ t.data) = s ++ t := by
  cases s
  cases t
  rfl

theorem sanEntries_no_comma (ip : String) (h : ',' ∉ ip.data) :
    sanEntries ip = ["DNS:localhost", "IP:127.0.0.1", "IP:" ++ ip] := by
  have h1 : ',' ∉ "DNS:localhost".data := by decide
  have h2 : ',' ∉ "IP:127.0.0.1".data := by decide
  have h3 : ',' ∉ "IP:".data ++ ip.data := by
    intro hm
    rcases List.mem_append.mp hm with hm | hm
    · exact absurd hm (by decide)
    · exact h hm
  have hsplit : splitCh ',' (sanString ip).data =
      ["DNS:localhost".data, "IP:127.0.0.1".data, "IP:".data ++ ip.data] := by
    rw [sanString_data, splitCh_append _ _ _ h1, splitCh_append _ _ _ h2,
      splitCh_no_sep _ _ h3]
  simp only [sanEntries, hsplit, List.map]
  refine congrArg₂ _ rfl (congrArg₂ _ rfl (congrArg₂ _ ?_ rfl))
  exact mk_append_data "IP:" ip

/-! ### ShutdownCoordinator (`shutdown_signal` and `serve_forever`,
source lines 108-119)

The handler installed for SIGINT and SIGTERM spawns a daemon thread that
calls `httpd.shutdown()`, which sets the shutdown-request flag of the
server and waits; the `serve_forever` loop polls the flag every 0.2 s,
exits once it is set, and `server_close` releases the socket.  We model the
abstract phase of the coordinator: `running` is the serve loop with the
flag clear, `shuttingDown` is the serve loop with the flag set, `stopped`
is after the loop has exited.  A `signal` step is one delivery of
SIGINT/SIGTERM (the spawned thread sets the flag); a `poll` step is one
iteration of the serve loop observing the flag. -/

/-- Coordinator phase: Running, ShuttingDown or Stopped. -/
inductive Phase where
  | running
  | shuttingDown
  | stopped
  deriving DecidableEq

/-- External events acting on the coordinator. -/
inductive SigEvent where
  | signal
  | poll
  deriving DecidableEq

/-- One step of the coordinator.  A signal sets the already-set flag again
when shutting down (no state change) and does nothing after the loop has
exited; a poll with the flag set exits the loop. -/
def sigStep : Phase → SigEvent → Phase
  | .running, .signal => .shuttingDown
  | .shuttingDown, .signal => .shuttingDown
  | .stopped, .signal => .stopped
  | .running, .poll => .running
  | .shuttingDown, .poll => .stopped
  | .stopped, .poll => .stopped

/-- Run the coordinator over a sequence of events. -/
def sigRun (p : Phase) (es : List SigEvent) : Phase :=
  es.foldl sigStep p

/-- Number of ShuttingDown-to-Stopped transitions performed along a run. -/
def stopTransitions : Phase → List SigEvent → Nat
  | _, [] => 0
  | p, e :: es =>
    (if p ≠ .stopped ∧ sigStep p e = .stopped then 1 else 0) +
      stopTransitions (sigStep p e) es

theorem sigStep_stopped (e : SigEvent) : sigStep .stopped e = .stopped := by
  cases e <;> rfl

theorem stopTransitions_stopped (es : List SigEvent) :
    stopTransitions .stopped es = 0 := by
  induction es with
  | nil => rfl
  | cons e es ih => simp [stopTransitions, sigStep_stopped, ih]

theorem stopTransitions_le_one (p : Phase) (es : List SigEvent) :
    stopTransitions p es ≤ 1 := by
  induction es generalizing p with
  | nil => simp [stopTransitions]
  | cons e es ih =>
    by_cases hq : sigStep p e = .stopped
    · simp only [stopTransitions, hq, stopTransitions_stopped]
      split <;> omega
    · have : ¬(p ≠ .stopped ∧ sigStep p e = .stopped) := fun h => hq h.2
      simp only [stopTransitions, this, if_false]
      simpa using ih (sigStep p e)

theorem stopTransitions_pos (p : Phase) (es : List SigEvent)
    (hend : sigRun p es = .stopped) (hp : p ≠ .stopped) :
    1 ≤ stopTransitions p es := by
  induction es generalizing p with
  | nil => exact absurd hend hp
  | cons e es ih =>
    by_cases hq : sigStep p e = .stopped
    · simp [stopTransitions, hp, hq]
    · have h1 : 1 ≤ stopTransitions (sigStep p e) es := by
        refine ih (sigStep p e) ?_ hq
        simpa [sigRun, List.foldl] using hend
      simp only [stopTransitions]
      omega

/-! ### Claims -/

/-- C1 as stated is false: the address is interpolated into the comma
separated subjectAltName value unescaped, so an address string containing a
comma injects extra SAN entries and the SAN set is not the stated
three-element set.  Here the address 1.2.3.4,DNS:evil.com yields the four
entries DNS:localhost, IP:127.0.0.1, IP:1.2.3.4 and DNS:evil.com. -/
theorem C1_counterexample :
    sanSet "1.2.3.4,DNS:evil.com" ≠
      ({"DNS:localhost", "IP:127.0.0.1",
        "IP:" ++ "1.2.3.4,DNS:evil.com"} : Finset String) := by
  decide

/-- C1 amended: for every address string containing no comma (which is
true of every address `lan_ip` can supply), a run of `ensure_certs` on the
generation path writes the openssl config whose SAN value it built, and
the SAN entry set of the generated certificate is exactly
DNS:localhost, IP:127.0.0.1 and IP:<address> — no others. -/
theorem C1_theorem (cert key ip : String) (env : GenEnv)
    (hmiss : (env.fs.certExists && env.fs.keyExists) = false)
    (hssl : env.opensslFound = true)
    (hgen : env.genExitZero = true)
    (hcomma : ',' ∉ ip.data) :
    Event.writeTmpCnf (cnfContent ip) ∈ (ensure_certs cert key ip env).events ∧
    sanSet ip = {"DNS:localhost", "IP:127.0.0.1", "IP:" ++ ip} := by
  constructor
  · simp [ensure_certs, hmiss, hssl, hgen]
  · rw [sanSet, sanEntries_no_comma ip hcomma]
    simp

/-- C1 witness: the amended theorem applied at the spec scenario address
192.168.1.50 in a fresh directory with openssl available. -/
theorem C1_witness :
    Event.writeTmpCnf (cnfContent "192.168.1.50") ∈
      (ensure_certs "cert.pem" "key.pem" "192.168.1.50"
        ⟨⟨false, false, false⟩, true, true, false, false, .ok⟩).events ∧
    sanSet "192.168.1.50" =
      {"DNS:localhost", "IP:127.0.0.1", "IP:" ++ "192.168.1.50"} :=
  C1_theorem "cert.pem" "key.pem" "192.168.1.50"
    ⟨⟨false, false, false⟩, true, true, false, false, .ok⟩
    rfl rfl rfl (by decide)

/-- C2: when generation is required (at least one target file missing) and
openssl is not found, `ensure_certs` prints the remediation message and
exits with code 1; its event trace holds only that print — no filesystem
write, no subprocess — the filesystem is unchanged, and `main` never
reaches the server-construction step (no plaintext fallback). -/
theorem C2_theorem (cert key ip : String) (env : GenEnv)
    (hmiss : (env.fs.certExists && env.fs.keyExists) = false)
    (hssl : env.opensslFound = false) :
    (ensure_certs cert key ip env).outcome = .exited 1 ∧
    (ensure_certs cert key ip env).events = [.printError noOpensslMsg] ∧
    (ensure_certs cert key ip env).fs = env.fs ∧
    mainReachesServe cert key ip env = false := by
  simp [ensure_certs, mainReachesServe, hmiss, hssl]

/-- C2 witness: a fresh directory with no openssl on the PATH. -/
theorem C2_witness :
    (ensure_certs "cert.pem" "key.pem" "192.168.1.50"
      ⟨⟨false, false, false⟩, false, true, false, false, .ok⟩).outcome = .exited 1 ∧
    (ensure_certs "cert.pem" "key.pem" "192.168.1.50"
      ⟨⟨false, false, false⟩, false, true, false, false, .ok⟩).events =
        [.printError noOpensslMsg] ∧
    (ensure_certs "cert.pem" "key.pem" "192.168.1.50"
      ⟨⟨false, false, false⟩, false, true, false, false, .ok⟩).fs =
        ⟨false, false, false⟩ ∧
    mainReachesServe "cert.pem" "key.pem" "192.168.1.50"
      ⟨⟨false, false, false⟩, false, true, false, false, .ok⟩ = false :=
  C2_theorem "cert.pem" "key.pem" "192.168.1.50"
    ⟨⟨false, false, false⟩, false, true, false, false, .ok⟩ rfl rfl

/-- C3: when both target files already exist, `ensure_certs` returns
normally with an empty effect trace — no write, no subprocess, no read of
file contents — and the filesystem is exactly the initial one. -/
theorem C3_theorem (cert key ip : String) (env : GenEnv)
    (hc : env.fs.certExists = true) (hk : env.fs.keyExists = true) :
    (ensure_certs cert key ip env).outcome = .returned ∧
    (ensure_certs cert key ip env).events = [] ∧
    (ensure_certs cert key ip env).fs = env.fs := by
  simp [ensure_certs, hc, hk]

/-- C3 witness: both files present, openssl absent and the unlink broken —
none of it matters on the fast path. -/
theorem C3_witness :
    (ensure_certs "cert.pem" "key.pem" "10.0.0.7"
      ⟨⟨true, true, false⟩, false, false, false, false, .failStuck⟩).outcome =
        .returned ∧
    (ensure_certs "cert.pem" "key.pem" "10.0.0.7"
      ⟨⟨true, true, false⟩, false, false, false, false, .failStuck⟩).events = [] ∧
    (ensure_certs "cert.pem" "key.pem" "10.0.0.7"
      ⟨⟨true, true, false⟩, false, false, false, false, .failStuck⟩).fs =
        ⟨true, true, false⟩ :=
  C3_theorem "cert.pem" "key.pem" "10.0.0.7"
    ⟨⟨true, true, false⟩, false, false, false, false, .failStuck⟩ rfl rfl

/-- C4 as stated is false: the call socket.socket on line 12 sits outside
the try block, so when creating the probing socket itself fails (for
instance a sandbox denying socket creation) the exception propagates out
of `lan_ip` instead of the loopback fallback being returned. -/
theorem C4_counterexample :
    (lan_ip ProbeEnv.sockRaises).1 = PyResult.raised ∧
    (lan_ip ProbeEnv.sockRaises).1 ≠ PyResult.ok "127.0.0.1" := by
  decide

/-- C4 amended: whenever the probing socket is created successfully,
`lan_ip` propagates no error: it returns a string which is a syntactically
valid IPv4 address, and on failure of the connect/getsockname probe that
string is exactly 127.0.0.1.  Only a failure of socket creation itself
(line 12, outside the try block) propagates. -/
theorem C4_theorem (env : ProbeEnv) (h : env ≠ .sockRaises) :
    ∃ s, (lan_ip env).1 = .ok s ∧ isValidIPv4Str s = true ∧
      (env = .connectRaises → s = "127.0.0.1") := by
  cases env with
  | sockRaises => exact absurd rfl h
  | connectRaises => exact ⟨"127.0.0.1", rfl, by decide, fun _ => rfl⟩
  | connected a => exact ⟨renderIPv4 a, rfl, renderIPv4_valid a, fun hc => nomatch hc⟩

/-- C4 witness: the amended theorem at the simulated probe failure. -/
theorem C4_witness :
    ∃ s, (lan_ip ProbeEnv.connectRaises).1 = .ok s ∧
      isValidIPv4Str s = true ∧
      (ProbeEnv.connectRaises = ProbeEnv.connectRaises → s = "127.0.0.1") :=
  C4_theorem ProbeEnv.connectRaises (by decide)

/-- C5 as stated is false: the finally block wraps os.unlink in
try/except OSError/pass, so when the unlink itself fails with the file
still present, the temporary config file remains on disk after
`ensure_certs` returns successfully. -/
theorem C5_counterexample :
    (ensure_certs "cert.pem" "key.pem" "192.168.1.50"
      ⟨⟨false, false, false⟩, true, true, false, false, .failStuck⟩).outcome =
        .returned ∧
    (ensure_certs "cert.pem" "key.pem" "192.168.1.50"
      ⟨⟨false, false, false⟩, true, true, false, false, .failStuck⟩).fs.tmpCnfExists =
        true := by
  decide

/-- C5 amended: on every run that reaches the generation step, the unlink
of the temporary config file is attempted (it appears in the effect trace)
on the success path and on the failure path of the subprocess alike, and
the file is absent afterwards unless the unlink attempt itself failed with
the file left in place — that failure is swallowed by the except clause. -/
theorem C5_theorem (cert key ip : String) (env : GenEnv)
    (hmiss : (env.fs.certExists && env.fs.keyExists) = false)
    (hssl : env.opensslFound = true) :
    Event.unlinkTmpCnf ∈ (ensure_certs cert key ip env).events ∧
    (env.unlink ≠ .failStuck →
      (ensure_certs cert key ip env).fs.tmpCnfExists = false) := by
  have hafter : env.unlink ≠ .failStuck → tmpAfterUnlink env.unlink = false := by
    cases env.unlink <;> simp [tmpAfterUnlink]
  constructor
  · by_cases hg : env.genExitZero = true <;>
      simp [ensure_certs, hmiss, hssl, hg]
  · intro hu
    by_cases hg : env.genExitZero = true <;>
      simp [ensure_certs, hmiss, hssl, hg, hafter hu]

/-- C5 witness: a failed generation run with a working unlink — the
attempt is in the trace and the temp file is gone. -/
theorem C5_witness :
    Event.unlinkTmpCnf ∈ (ensure_certs "cert.pem" "key.pem" "10.0.0.5"
      ⟨⟨false, true, false⟩, true, false, false, false, .ok⟩).events ∧
    ((⟨⟨false, true, false⟩, true, false, false, false, .ok⟩ : GenEnv).unlink ≠
        .failStuck →
      (ensure_certs "cert.pem" "key.pem" "10.0.0.5"
        ⟨⟨false, true, false⟩, true, false, false, false, .ok⟩).fs.tmpCnfExists =
          false) :=
  C5_theorem "cert.pem" "key.pem" "10.0.0.5"
    ⟨⟨false, true, false⟩, true, false, false, false, .ok⟩ rfl rfl

/-- C6 as stated is false: the fast path on line 25 requires BOTH files to
exist, so with only cert.pem present (key.pem missing) and openssl
available, generation is not skipped — openssl is invoked, it rewrites
both files, `ensure_certs` returns normally and the dependent TLS load
succeeds, contradicting both that the missing file is never regenerated
and that the load step fails. -/
theorem C6_counterexample :
    (ensure_certs "cert.pem" "key.pem" "192.168.1.50"
      ⟨⟨true, false, false⟩, true, true, false, false, .ok⟩).outcome = .returned ∧
    Event.runOpenssl (opensslArgs "openssl" "cert.pem" "key.pem" tmpCnfName) ∈
      (ensure_certs "cert.pem" "key.pem" "192.168.1.50"
        ⟨⟨true, false, false⟩, true, true, false, false, .ok⟩).events ∧
    (ensure_certs "cert.pem" "key.pem" "192.168.1.50"
      ⟨⟨true, false, false⟩, true, true, false, false, .ok⟩).fs.keyExists = true ∧
    load_cert_chain (ensure_certs "cert.pem" "key.pem" "192.168.1.50"
      ⟨⟨true, false, false⟩, true, true, false, false, .ok⟩).fs = true := by
  decide

/-- C6 amended: partial state triggers regeneration, not a skip.  When
exactly one of the two target files is present, `ensure_certs` takes the
generation path; with openssl available and the subprocess succeeding it
rewrites both files and the dependent TLS load step succeeds. -/
theorem C6_theorem (cert key ip : String) (env : GenEnv)
    (hone : env.fs.certExists ≠ env.fs.keyExists)
    (hssl : env.opensslFound = true)
    (hgen : env.genExitZero = true) :
    tookGenerationPath cert key ip env = true ∧
    (ensure_certs cert key ip env).fs.certExists = true ∧
    (ensure_certs cert key ip env).fs.keyExists = true ∧
    load_cert_chain (ensure_certs cert key ip env).fs = true := by
  have hmiss : (env.fs.certExists && env.fs.keyExists) = false := by
    cases hc : env.fs.certExists <;> cases hk : env.fs.keyExists <;> simp_all
  simp [ensure_certs, tookGenerationPath, load_cert_chain, hmiss, hssl, hgen]

/-- C6 witness: only the key file present. -/
theorem C6_witness :
    tookGenerationPath "cert.pem" "key.pem" "192.168.1.50"
      ⟨⟨false, true, false⟩, true, true, false, false, .ok⟩ = true ∧
    (ensure_certs "cert.pem" "key.pem" "192.168.1.50"
      ⟨⟨false, true, false⟩, true, true, false, false, .ok⟩).fs.certExists = true ∧
    (ensure_certs "cert.pem" "key.pem" "192.168.1.50"
      ⟨⟨false, true, false⟩, true, true, false, false, .ok⟩).fs.keyExists = true ∧
    load_cert_chain (ensure_certs "cert.pem" "key.pem" "192.168.1.50"
      ⟨⟨false, true, false⟩, true, true, false, false, .ok⟩).fs = true :=
  C6_theorem "cert.pem" "key.pem" "192.168.1.50"
    ⟨⟨false, true, false⟩, true, true, false, false, .ok⟩ (by decide) rfl rfl

/-- C7: on the generation path, a non-zero exit of the openssl subprocess
surfaces as the designated provisioning error — the `CalledProcessError`
raised by check=True — never as a normal return. -/
theorem C7_theorem (cert key ip : String) (env : GenEnv)
    (hmiss : (env.fs.certExists && env.fs.keyExists) = false)
    (hssl : env.opensslFound = true)
    (hgen : env.genExitZero = false) :
    (ensure_certs cert key ip env).outcome = .raisedCalledProcessError ∧
    (ensure_certs cert key ip env).outcome ≠ .returned := by
  simp [ensure_certs, hmiss, hssl, hgen]

/-- C7 witness: a failing openssl run in a fresh directory. -/
theorem C7_witness :
    (ensure_certs "cert.pem" "key.pem" "192.168.1.50"
      ⟨⟨false, false, false⟩, true, false, false, true, .ok⟩).outcome =
        .raisedCalledProcessError ∧
    (ensure_certs "cert.pem" "key.pem" "192.168.1.50"
      ⟨⟨false, false, false⟩, true, false, false, true, .ok⟩).outcome ≠
        .returned :=
  C7_theorem "cert.pem" "key.pem" "192.168.1.50"
    ⟨⟨false, false, false⟩, true, false, false, true, .ok⟩ rfl rfl rfl

/-- C8: a second signal delivered while the coordinator is ShuttingDown is
a no-op — the step leaves the phase unchanged, the whole run reaches the
same final phase, it adds no ShuttingDown-to-Stopped transition — and on
any run that completes the shutdown, that transition happens exactly
once. -/
theorem C8_theorem (es : List SigEvent)
    (h : sigRun .shuttingDown es = .stopped) :
    sigStep .shuttingDown .signal = .shuttingDown ∧
    sigRun .shuttingDown (.signal :: es) = sigRun .shuttingDown es ∧
    stopTransitions .shuttingDown (.signal :: es) =
      stopTransitions .shuttingDown es ∧
    stopTransitions .shuttingDown (.signal :: es) = 1 := by
  refine ⟨rfl, rfl, ?_, ?_⟩
  · simp [stopTransitions, sigStep]
  · have hrun : sigRun .shuttingDown (.signal :: es) = .stopped := h
    have h1 := stopTransitions_le_one .shuttingDown (.signal :: es)
    have h2 := stopTransitions_pos .shuttingDown (.signal :: es) hrun (by decide)
    omega

/-- C8 witness: the run in which the serve loop polls once after the
second signal. -/
theorem C8_witness :
    sigStep .shuttingDown .signal = .shuttingDown ∧
    sigRun .shuttingDown (.signal :: [.poll]) = sigRun .shuttingDown [.poll] ∧
    stopTransitions .shuttingDown (.signal :: [.poll]) =
      stopTransitions .shuttingDown [.poll] ∧
    stopTransitions .shuttingDown (.signal :: [.poll]) = 1 :=
  C8_theorem [.poll] rfl

/-- C9: on every run of `lan_ip` in which a probing socket was opened, the
socket is closed, and the close is the last socket event before the
function returns — the finally clause runs on the success path and on the
probe failure path alike. -/
theorem C9_theorem (env : ProbeEnv)
    (h : NetEvent.sockOpen ∈ (lan_ip env).2) :
    NetEvent.sockClose ∈ (lan_ip env).2 ∧
    (lan_ip env).2.getLast? = some NetEvent.sockClose := by
  cases env with
  | sockRaises => simp [lan_ip] at h
  | connectRaises => exact ⟨by simp [lan_ip], rfl⟩
  | connected a => exact ⟨by simp [lan_ip], rfl⟩

/-- C9 witness: the probe failure run opens the socket and closes it. -/
theorem C9_witness :
    NetEvent.sockClose ∈ (lan_ip ProbeEnv.connectRaises).2 ∧
    (lan_ip ProbeEnv.connectRaises).2.getLast? = some NetEvent.sockClose :=
  C9_theorem ProbeEnv.connectRaises (by decide)

/-- C10: with the fallback address 127.0.0.1 the SAN list of line 35
contains the entry IP:127.0.0.1 twice — nothing deduplicates it before
generation — so the SAN set of the generated certificate has exactly the
two distinct values DNS:localhost and IP:127.0.0.1. -/
theorem C10_theorem :
    sanEntries "127.0.0.1" =
      ["DNS:localhost", "IP:127.0.0.1", "IP:127.0.0.1"] ∧
    (sanEntries "127.0.0.1").count "IP:127.0.0.1" = 2 ∧
    sanSet "127.0.0.1" = {"DNS:localhost", "IP:127.0.0.1"} ∧
    (sanSet "127.0.0.1").card = 2 := by
  decide

end Crowsite
